import Mathlib

set_option autoImplicit false

/-!
Verification of the withrestart library (structured error recovery using
named restart functions) against its specification.

The development is a shallow embedding of the two source modules:

* withrestart/callstack.py : the CallStack class keeping per-execution-frame
  stacks of items.  A frame identity is modelled as a Nat; the dynamic call
  chain visible from the current frame is a list of frame identities, nearest
  frame first (the head is the current frame, the tail its ancestors, exactly
  the f_back chain walked by the source).  The mapping frame -> list of items
  (the _frame_stacks dict) is modelled as a total function Nat -> List items;
  the source deletes a key as soon as its list becomes empty, so an absent key
  and an empty list are indistinguishable, which the function representation
  builds in.  Lists keep Python order: append at the end on push, so the most
  recently pushed item is the last element.

* withrestart/__init__.py : Restart, RestartSuite, Handler, HandlerSuite, the
  InvokeRestart control-transfer signal, the invoke dispatcher,
  RestartSuite.__call__ / __enter__ / __exit__, find_restart,
  _invoke_cur_handlers and the built-in restarts use_value, raise_error, skip
  and retry.  Python exceptions are modelled by an explicit Except channel
  whose error type Exc carries either an ordinary error (Err) or the
  InvokeRestart signal.  Python object identity for Restart objects (used by
  the source through the operators "in" and "is") is modelled by a numeric id
  field, given a distinct value at each modelled allocation.  Keyword
  arguments are folded into the positional argument list.  Recursion through
  the retry restart (restart -> dispatcher -> restart ...) is made structural
  with a fuel parameter; running out of fuel yields the distinguished
  Exc.outOfFuel, which no theorem below ever accepts as an observation.
-/

/-- The errors that can occur in the modelled scenarios.  missingRestart
models MissingRestartError(name); stopIteration models the StopIteration
raised by .next() on an exhausted iterator (retry with no call record);
indexError models the IndexError raised by CallStack.pop on underflow. -/
inductive Err where
  | typeError
  | zeroDivisionError
  | valueError
  | runtimeError
  | missingRestart (name : String)
  | stopIteration
  | indexError
  | other (n : Nat)
deriving DecidableEq

/-- Python values passed to protected calls and restarts.  The NoValue
sentinel class of the source is the constructor noValue; vNone stands for
Python None (the value of a with-block that was skipped). -/
inductive Value where
  | int (n : Int)
  | str (s : String)
  | exc (e : Err)
  | noValue
  | vNone
deriving DecidableEq

/-- Exception classes a Handler can be keyed on (the exc_type argument).
exception matches every error; restartError matches MissingRestartError as
its subclass, mirroring the source class hierarchy. -/
inductive ErrClass where
  | exception
  | typeError
  | zeroDivisionError
  | valueError
  | runtimeError
  | restartError
  | missingRestartError
  | otherC (n : Nat)
deriving DecidableEq

/-- isinstance(e, c) for the modelled class hierarchy. -/
def Err.isinstance : Err → ErrClass → Bool
  | _, ErrClass.exception => true
  | Err.typeError, ErrClass.typeError => true
  | Err.zeroDivisionError, ErrClass.zeroDivisionError => true
  | Err.valueError, ErrClass.valueError => true
  | Err.runtimeError, ErrClass.runtimeError => true
  | Err.missingRestart _, ErrClass.restartError => true
  | Err.missingRestart _, ErrClass.missingRestartError => true
  | Err.other n, ErrClass.otherC m => n == m
  | _, _ => false

/-- isinstance against an exc_type that may be a tuple of classes; a single
class is the singleton list. -/
def Err.isinstanceAny (e : Err) (cs : List ErrClass) : Bool :=
  cs.any (fun c => e.isinstance c)

/-- The body of a Python function used as a restart callback.  The four
built-ins of the source are useValue, raiseError, skip and retry
(lines 548-563); constV, raiseE and incrCounter model user-written callbacks
(return a constant, raise an error, bump the scenario counter). -/
inductive RBody where
  | useValue
  | raiseError
  | skip
  | retry
  | constV (v : Value)
  | raiseE (e : Err)
  | incrCounter
deriving DecidableEq

/-- A Python function object: its __name__ (func_name in the source, used by
Restart.__init__ to derive a default restart name) and its behaviour. -/
structure PyFunc where
  func_name : String
  body : RBody
deriving DecidableEq

/-- Restart marker object (source lines 215-251).  The id field models
Python object identity: each modelled allocation uses a fresh id, and the
membership / identity tests of the source ("in", "is") compare ids. -/
structure Restart where
  id : Nat
  name : String
  func : PyFunc
deriving DecidableEq

/-- Restart.__init__ (lines 228-240): with no explicit name the restart is
named after the callback function. -/
def Restart.make (id : Nat) (func : PyFunc) (name : Option String) : Restart :=
  { id := id, func := func, name := name.getD func.func_name }

/-- A suite of restarts pushed and popped together (lines 254-362). -/
structure RestartSuite where
  restarts : List Restart
deriving DecidableEq

/-- An argument to the RestartSuite constructor: a nested suite (flattened),
an existing Restart, or a bare callable (wrapped by Restart(r)). -/
inductive SuiteArg where
  | suite (s : RestartSuite)
  | restart (r : Restart)
  | func (f : PyFunc)

/-- The normalisation loop of RestartSuite.__init__ (lines 263-272); fresh
ids for the Restart objects it allocates are drawn from i upwards. -/
def suiteInitLoop : List SuiteArg → Nat → List Restart
  | [], _ => []
  | SuiteArg.suite s :: t, i => s.restarts ++ suiteInitLoop t i
  | SuiteArg.restart r :: t, i => r :: suiteInitLoop t i
  | SuiteArg.func f :: t, i => Restart.make i f Option.none :: suiteInitLoop t (i + 1)

/-- RestartSuite.__init__ (lines 263-272). -/
def RestartSuite.init (args : List SuiteArg) (freshId : Nat) : RestartSuite :=
  { restarts := suiteInitLoop args freshId }

/-- The per-call-stack context structure of withrestart/callstack.py: the
_frame_stacks dict as a total function from frame identity to the list of
items pushed at that frame (Python order, most recent last). -/
def CallStack (α : Type) : Type := Nat → List α

/-- A CallStack with no entries. -/
def CallStack.empty {α : Type} : CallStack α := fun _ => []

/-- CallStack.push (lines 82-94) resolved to the frame it lands on: the
offset arithmetic of the source (_getframe(offset+1)) selects a frame of the
caller's chain, and every call site below passes that frame directly.  The
item is appended at the end of the frame's list. -/
def CallStack.pushAt {α : Type} (cs : CallStack α) (f : Nat) (item : α) : CallStack α :=
  fun g => if g = f then cs f ++ [item] else cs g

/-- CallStack.pop (lines 96-109): walk the chain from the current frame
through its ancestors to the first frame whose stack is non-empty and remove
that stack's most recently pushed (last) item; if every frame of the chain is
empty the source raises IndexError, modelled by Option.none. -/
def CallStack.pop {α : Type} (cs : CallStack α) : List Nat → Option (CallStack α)
  | [] => Option.none
  | f :: rest =>
    match cs f with
    | [] => CallStack.pop cs rest
    | _ :: _ => some (fun g => if g = f then (cs f).dropLast else cs g)

/-- CallStack.items (lines 111-122): all items visible from the current
frame, nearest frame first and, inside one frame, most recently pushed first
(the source yields reversed(frame_stack) per frame). -/
def CallStack.items {α : Type} (cs : CallStack α) : List Nat → List α
  | [] => []
  | f :: rest => (cs f).reverse ++ CallStack.items cs rest

/-- The control-transfer channel: an ordinary error, or the InvokeRestart
signal (source lines 195-212) carrying the selected Restart object and the
invocation arguments, or fuel exhaustion of the model. -/
inductive Exc where
  | err (e : Err)
  | signal (restart : Restart) (args : List Value)
  | outOfFuel
deriving DecidableEq

/-- find_restart (lines 368-377): walk the suites visible on the restart
stack, nearest first, and inside each suite its restarts in order; return the
first restart carrying the name, or None. -/
def suitesFind : List RestartSuite → String → Option Restart
  | [], _ => Option.none
  | s :: rest, n =>
    match s.restarts.find? (fun r => r.name == n) with
    | some r => some r
    | Option.none => suitesFind rest n

/-- find_restart (lines 368-377): rs is the _cur_restarts stack and chain the
dynamic frame chain of the caller. -/
def find_restart (rs : CallStack RestartSuite) (chain : List Nat) (name : String) :
    Option Restart :=
  suitesFind (rs.items chain) name

/-- InvokeRestart.__init__ called with a restart NAME (lines 202-206): the
name is resolved by find_restart at raise time; an unknown name raises
MissingRestartError, a known one raises the signal for the found restart. -/
def mkInvokeRestart (rs : CallStack RestartSuite) (chain : List Nat)
    (name : String) (args : List Value) : Except Exc Unit :=
  match find_restart rs chain name with
  | Option.none => Except.error (Exc.err (Err.missingRestart name))
  | some r => Except.error (Exc.signal r args)

/-- A user handler callback, deep-embedded: raise InvokeRestart for a restart
name, raise InvokeRestart for a Restart object (skipping name resolution, as
the source constructor does for Restart instances), return normally
(decline), or raise an ordinary error. -/
inductive HCallback where
  | raiseInvokeByName (name : String) (args : List Value)
  | raiseInvokeObj (r : Restart) (args : List Value)
  | decline
  | raiseErr (e : Err)
deriving DecidableEq

/-- The func argument of Handler.__init__: either the name of a restart (a
string, the shortcut syntax) or a callback. -/
inductive HFunc where
  | name (s : String)
  | cb (c : HCallback)
deriving DecidableEq

/-- Restart handler object (lines 411-456): an exception type (a class or
tuple of classes, here a list), the reaction, and stored extra args. -/
structure Handler where
  exc_type : List ErrClass
  func : HFunc
  args : List Value
deriving DecidableEq

/-- Running a deep-embedded callback; rs and chain are needed because a
callback that raises InvokeRestart by name resolves it against the restarts
visible at raise time. -/
def runCallback : HCallback → CallStack RestartSuite → List Nat → Err → Except Exc Unit
  | HCallback.raiseInvokeByName s args, rs, chain, _ => mkInvokeRestart rs chain s args
  | HCallback.raiseInvokeObj r args, _, _, _ => Except.error (Exc.signal r args)
  | HCallback.decline, _, _, _ => Except.ok ()
  | HCallback.raiseErr e, _, _, _ => Except.error (Exc.err e)

/-- Handler.handle_error (lines 439-449): if the error matches exc_type, a
string reaction immediately raises InvokeRestart for that name with the
stored args; a callback reaction is called and may decline (return) or raise.
A non-matching error is ignored. -/
def Handler.handle_error (h : Handler) (rs : CallStack RestartSuite)
    (chain : List Nat) (e : Err) : Except Exc Unit :=
  if e.isinstanceAny h.exc_type then
    match h.func with
    | HFunc.name s => mkInvokeRestart rs chain s h.args
    | HFunc.cb c => runCallback c rs chain e
  else Except.ok ()

/-- An entry of the _cur_handlers stack: a bare Handler (pushed by
Handler.__enter__) or a HandlerSuite (pushed by HandlerSuite.__enter__). -/
inductive HandlerItem where
  | single (h : Handler)
  | hsuite (hs : List Handler)
deriving DecidableEq

/-- HandlerSuite.handle_error (lines 470-472): each member handler in order;
an exception (signal or error) aborts the loop. -/
def handlerLoop : List Handler → CallStack RestartSuite → List Nat → Err → Except Exc Unit
  | [], _, _, _ => Except.ok ()
  | h :: t, rs, chain, e =>
    match h.handle_error rs chain e with
    | Except.ok _ => handlerLoop t rs chain e
    | Except.error ex => Except.error ex

/-- handle_error of a handler-stack entry. -/
def HandlerItem.handle_error : HandlerItem → CallStack RestartSuite → List Nat → Err → Except Exc Unit
  | HandlerItem.single h, rs, chain, e => h.handle_error rs chain e
  | HandlerItem.hsuite hs, rs, chain, e => handlerLoop hs rs chain e

/-- The loop of _invoke_cur_handlers over the visible handler entries: each
in turn; the first signal or error raised aborts the loop, a handler that
returns normally is skipped over. -/
def handleItems : List HandlerItem → CallStack RestartSuite → List Nat → Err → Except Exc Unit
  | [], _, _, _ => Except.ok ()
  | h :: t, rs, chain, e =>
    match h.handle_error rs chain e with
    | Except.ok _ => handleItems t rs chain e
    | Except.error ex => Except.error ex

/-- _invoke_cur_handlers (lines 534-544): hs is the _cur_handlers stack, rs
the _cur_restarts stack; the visible handlers, nearest scope first, are each
invoked on the error until one raises. -/
def invoke_cur_handlers (hs : CallStack HandlerItem) (rs : CallStack RestartSuite)
    (chain : List Nat) (e : Err) : Except Exc Unit :=
  handleItems (hs.items chain) rs chain e

/-- Which dispatcher recorded a CallRecord: the free function invoke, or a
RestartSuite used as a callable.  retry re-invokes through the recorded
dispatcher. -/
inductive Dispatcher where
  | free
  | suite (s : RestartSuite)
deriving DecidableEq

/-- A protected target function, deep-embedded.  div is the division test
function of the source tests; flaky n v fails (ValueError) while fewer than
n calls have been counted, then returns v, counting every call in the state
counter; constT and raiseT are trivial targets. -/
inductive Target where
  | div
  | flaky (n : Nat) (v : Value)
  | constT (v : Value)
  | raiseT (e : Err)
deriving DecidableEq

/-- The tuple (invoke, func, args, kwds) pushed on _cur_calls by invoke
(line 393) and RestartSuite.__call__ (line 318). -/
structure CallRecord where
  disp : Dispatcher
  tgt : Target
  args : List Value
deriving DecidableEq

/-- Evaluation of a target on its arguments; takes and returns the scenario
counter.  div models Python 2 integer division: TypeError on a non-int
operand, ZeroDivisionError on a zero divisor, floor division otherwise. -/
def evalTarget : Target → List Value → Nat → Nat × Except Err Value
  | Target.div, [Value.int a, Value.int b], c =>
    (c, if b = 0 then Except.error Err.zeroDivisionError else Except.ok (Value.int (Int.fdiv a b)))
  | Target.div, _, c => (c, Except.error Err.typeError)
  | Target.flaky n v, _, c =>
    (c + 1, if c < n then Except.error Err.valueError else Except.ok v)
  | Target.constT v, _, c => (c, Except.ok v)
  | Target.raiseT e, _, c => (c, Except.error e)

/-- The global state of the module: the three CallStack globals of the
source (_cur_restarts, _cur_handlers, _cur_calls, lines 172-174), a scenario
counter standing for the mutable state of stateful targets and callbacks,
and a supply of fresh frame identities for new call frames. -/
structure PyState where
  curRestarts : CallStack RestartSuite
  curHandlers : CallStack HandlerItem
  curCalls : CallStack CallRecord
  counter : Nat
  nextFrame : Nat

/-- The finally clause of the dispatcher (invoke line 408, __call__
line 333): pop the CallRecord from the dispatcher's frame chain.  The pop
cannot underflow under the push discipline; if it did, the IndexError would
replace the pending result, exactly as an exception raised in a Python
finally block does. -/
def finishPop (st : PyState) (chain : List Nat) (res : Except Exc Value) :
    PyState × Except Exc Value :=
  match st.curCalls.pop chain with
  | some cc => ({ st with curCalls := cc }, res)
  | Option.none => (st, Except.error (Exc.err Err.indexError))

/-- The membership test guarding signal resolution: the free function invoke
resolves any signal reaching it (lines 399-404), while RestartSuite.__call__
resolves a signal only if its restart is in self.restarts (line 325, Python
"in", i.e. object identity). -/
def memberOf : Dispatcher → Restart → Bool
  | Dispatcher.free, _ => true
  | Dispatcher.suite s, r => s.restarts.any (fun r2 => r2.id == r.id)

/-- A unit of work for the fuel-based evaluator: a dispatcher call (invoke,
lines 381-408, or RestartSuite.__call__, lines 317-333, chosen by the
Dispatcher) or the invocation of a restart, InvokeRestart.invoke
(lines 211-212) / Restart.invoke (lines 242-243). -/
inductive Req where
  | call (d : Dispatcher) (tgt : Target) (args : List Value)
  | restart (r : Restart) (args : List Value)

/-- The evaluator.  A call request runs in a fresh frame g (the dispatcher's
own execution frame): the CallRecord is pushed at g (push with offset 0),
the target is evaluated, and on failure the visible handlers are run from
g's chain; a signal raised by a handler is resolved per memberOf: the
restart is invoked and its value returned unless it is the NoValue sentinel,
in which case the bare raise of the source re-raises the InvokeRestart
signal being handled (not the original error); an unresolved signal or a
handler round that returns normally re-raises, respectively, the signal or
the original error; the finally clause always pops the CallRecord.  A
restart request evaluates the restart callback; retry reads the nearest
visible CallRecord (items().next()) and re-invokes the recorded dispatcher
on the recorded target and arguments.
The helper recordPush is the state change at the top of a dispatcher call:
allocate the dispatcher's own fresh frame, push the CallRecord (invoke
line 393 / __call__ line 318) at that frame, and account for the target's
effect on the scenario counter. -/
def recordPush (st : PyState) (d : Dispatcher) (tgt : Target) (args : List Value)
    (c2 : Nat) : PyState :=
  { st with nextFrame := st.nextFrame + 1,
            curCalls := st.curCalls.pushAt st.nextFrame
                          { disp := d, tgt := tgt, args := args },
            counter := c2 }

/-- The evaluator over requests; see the comment on recordPush above. -/
def step : Nat → Req → PyState → List Nat → PyState × Except Exc Value
  | 0, _, st, _ => (st, Except.error Exc.outOfFuel)
  | Nat.succ fuel, Req.restart r args, st, chain =>
    match r.func.body, args with
    | RBody.useValue, [v] => (st, Except.ok v)
    | RBody.raiseError, [Value.exc e] => (st, Except.error (Exc.err e))
    | RBody.skip, [] => (st, Except.ok Value.noValue)
    | RBody.retry, [] =>
      (match st.curCalls.items chain with
       | [] => (st, Except.error (Exc.err Err.stopIteration))
       | rec :: _ => step fuel (Req.call rec.disp rec.tgt rec.args) st chain)
    | RBody.constV v, _ => (st, Except.ok v)
    | RBody.raiseE e, _ => (st, Except.error (Exc.err e))
    | RBody.incrCounter, _ => ({ st with counter := st.counter + 1 }, Except.ok Value.vNone)
    | _, _ => (st, Except.error (Exc.err Err.typeError))
  | Nat.succ fuel, Req.call d tgt args, st, chain =>
    match evalTarget tgt args st.counter with
    | (c2, Except.ok v) =>
      finishPop (recordPush st d tgt args c2) (st.nextFrame :: chain) (Except.ok v)
    | (c2, Except.error err) =>
      match invoke_cur_handlers st.curHandlers st.curRestarts (st.nextFrame :: chain) err with
      | Except.ok _ =>
        finishPop (recordPush st d tgt args c2) (st.nextFrame :: chain)
          (Except.error (Exc.err err))
      | Except.error (Exc.signal r rargs) =>
        if memberOf d r then
          match step fuel (Req.restart r rargs) (recordPush st d tgt args c2)
                  (st.nextFrame :: chain) with
          | (st3, Except.ok v) =>
            if v = Value.noValue then
              finishPop st3 (st.nextFrame :: chain) (Except.error (Exc.signal r rargs))
            else
              finishPop st3 (st.nextFrame :: chain) (Except.ok v)
          | (st3, Except.error ex) => finishPop st3 (st.nextFrame :: chain) (Except.error ex)
        else
          finishPop (recordPush st d tgt args c2) (st.nextFrame :: chain)
            (Except.error (Exc.signal r rargs))
      | Except.error ex =>
        finishPop (recordPush st d tgt args c2) (st.nextFrame :: chain) (Except.error ex)

/-- The free-function dispatcher invoke (lines 381-408). -/
def invoke (fuel : Nat) (st : PyState) (chain : List Nat) (tgt : Target)
    (args : List Value) : PyState × Except Exc Value :=
  step fuel (Req.call Dispatcher.free tgt args) st chain

/-- RestartSuite.__call__ (lines 317-333): the suite used as a dispatcher. -/
def suiteCall (fuel : Nat) (s : RestartSuite) (st : PyState) (chain : List Nat)
    (tgt : Target) (args : List Value) : PyState × Except Exc Value :=
  step fuel (Req.call (Dispatcher.suite s) tgt args) st chain

/-- InvokeRestart.invoke / Restart.invoke (lines 211-212, 242-243): run the
selected restart callback on the signal arguments. -/
def restartInvoke (fuel : Nat) (st : PyState) (chain : List Nat) (r : Restart)
    (args : List Value) : PyState × Except Exc Value :=
  step fuel (Req.restart r args) st chain

/-- RestartSuite.__enter__ (lines 335-337): push the suite on _cur_restarts
at the caller's frame (push with offset 1 lands one frame above __enter__'s
own frame, i.e. at the head of the user's chain).  Restart.__enter__
(lines 245-248) does the same after wrapping the single restart in a suite.
A running Python program always has a current frame, so the empty-chain case
is unreachable. -/
def suiteEnter (s : RestartSuite) (st : PyState) (chain : List Nat) : PyState :=
  match chain with
  | f :: _ => { st with curRestarts := st.curRestarts.pushAt f s }
  | [] => st

/-- Handler.__enter__ (lines 451-453) and HandlerSuite.__enter__
(lines 474-476): push the handler entry at the caller's frame. -/
def handlerEnter (h : HandlerItem) (st : PyState) (chain : List Nat) : PyState :=
  match chain with
  | f :: _ => { st with curHandlers := st.curHandlers.pushAt f h }
  | [] => st

/-- The finally clause of RestartSuite.__exit__ (line 362): pop the suite
from _cur_restarts; an underflow (impossible under the with discipline)
would raise IndexError, replacing the pending result. -/
def restartsPop (st : PyState) (chain : List Nat) (res : Except Exc Bool) :
    PyState × Except Exc Bool :=
  match st.curRestarts.pop chain with
  | some cr => ({ st with curRestarts := cr }, res)
  | Option.none => (st, Except.error (Exc.err Err.indexError))

/-- RestartSuite.__exit__ (lines 339-362), the branch handling a pending
InvokeRestart signal (lines 342-348): a restart of this suite consumes the
signal (it is invoked, its value discarded, True is returned so the with
statement suppresses the exception); a foreign restart returns False so the
signal keeps propagating; the finally clause pops the suite. -/
def suiteExitOnSignal (fuel : Nat) (s : RestartSuite) (st : PyState)
    (chain : List Nat) (r : Restart) (args : List Value) : PyState × Except Exc Bool :=
  if s.restarts.any (fun r2 => r2.id == r.id) then
    match restartInvoke fuel st chain r args with
    | (st2, Except.ok _) => restartsPop st2 chain (Except.ok true)
    | (st2, Except.error ex) => restartsPop st2 chain (Except.error ex)
  else restartsPop st chain (Except.ok false)

/-- RestartSuite.__exit__ (lines 349-360), the branch handling an ordinary
pending exception: the visible handlers are run; if they return normally the
original exception propagates (False); a signal they raise is consumed iff
its restart belongs to this suite, and otherwise re-raised (replacing the
original error); any other exception they raise also replaces it; the
finally clause pops the suite.  The argument is the outcome of
_invoke_cur_handlers. -/
def suiteExitOnErr (fuel : Nat) (s : RestartSuite) (st : PyState)
    (chain : List Nat) : Except Exc Unit → PyState × Except Exc Bool
  | Except.ok _ => restartsPop st chain (Except.ok false)
  | Except.error (Exc.signal r args) =>
    if s.restarts.any (fun r2 => r2.id == r.id) then
      match restartInvoke fuel st chain r args with
      | (st2, Except.ok _) => restartsPop st2 chain (Except.ok true)
      | (st2, Except.error ex) => restartsPop st2 chain (Except.error ex)
    else restartsPop st chain (Except.error (Exc.signal r args))
  | Except.error ex => restartsPop st chain (Except.error ex)

/-- RestartSuite.__exit__ (lines 339-362).  exc is the exception leaving the
with-block body, if any; ok true suppresses it, ok false lets it propagate,
error ex replaces it; on every path the suite is popped from _cur_restarts
(the finally clause, inside restartsPop). -/
def suiteExit (fuel : Nat) (s : RestartSuite) (st : PyState) (chain : List Nat) :
    Option Exc → PyState × Except Exc Bool
  | Option.none => restartsPop st chain (Except.ok false)
  | some (Exc.signal r args) => suiteExitOnSignal fuel s st chain r args
  | some (Exc.err e) =>
    suiteExitOnErr fuel s st chain
      (invoke_cur_handlers st.curHandlers st.curRestarts chain e)
  | some Exc.outOfFuel => restartsPop st chain (Except.error Exc.outOfFuel)

/-- A straight-line program of user code: dispatcher calls and properly
nested with-blocks over restart suites and handler entries, the shapes the
claims quantify over. -/
inductive Prog where
  | callFree (tgt : Target) (args : List Value)
  | callSuite (s : RestartSuite) (tgt : Target) (args : List Value)
  | withRestarts (s : RestartSuite) (body : Prog)
  | withHandler (h : HandlerItem) (body : Prog)
  | seq (p q : Prog)
  | nop

/-- The with-statement glue for a restart suite: feed the body's outcome to
RestartSuite.__exit__; ok true from __exit__ suppresses the body's exception
and the block yields None, ok false propagates it, and an exception raised
by __exit__ replaces it. -/
def suiteExitGlue (fuel : Nat) (s : RestartSuite) (chain : List Nat) :
    PyState × Except Exc Value → PyState × Except Exc Value
  | (st2, Except.ok v) =>
    (match suiteExit fuel s st2 chain Option.none with
     | (st3, Except.ok _) => (st3, Except.ok v)
     | (st3, Except.error ex) => (st3, Except.error ex))
  | (st2, Except.error e) =>
    (match suiteExit fuel s st2 chain (some e) with
     | (st3, Except.ok true) => (st3, Except.ok Value.vNone)
     | (st3, Except.ok false) => (st3, Except.error e)
     | (st3, Except.error ex) => (st3, Except.error ex))

/-- The with-statement glue for a handler entry: Handler.__exit__ and
HandlerSuite.__exit__ (lines 455-456, 478-479) pop unconditionally and never
suppress the body's outcome. -/
def handlerExitGlue (chain : List Nat) :
    PyState × Except Exc Value → PyState × Except Exc Value
  | (st2, r) =>
    (match st2.curHandlers.pop chain with
     | some ch => ({ st2 with curHandlers := ch }, r)
     | Option.none => (st2, Except.error (Exc.err Err.indexError)))

/-- Sequencing glue: run the continuation only when the first statement
completed normally. -/
def seqGlue (k : PyState → PyState × Except Exc Value) :
    PyState × Except Exc Value → PyState × Except Exc Value
  | (st2, Except.ok _) => k st2
  | (st2, Except.error e) => (st2, Except.error e)

/-- Execution of a program at a fixed frame chain (with-blocks run in the
frame of the enclosing function; only dispatcher calls open fresh frames,
inside step).  The __exit__ method always runs, on every exit path. -/
def execP : Prog → Nat → PyState → List Nat → PyState × Except Exc Value
  | Prog.callFree tgt args, fuel, st, chain => invoke fuel st chain tgt args
  | Prog.callSuite s tgt args, fuel, st, chain => suiteCall fuel s st chain tgt args
  | Prog.withRestarts s body, fuel, st, chain =>
    suiteExitGlue fuel s chain (execP body fuel (suiteEnter s st chain) chain)
  | Prog.withHandler h body, fuel, st, chain =>
    handlerExitGlue chain (execP body fuel (handlerEnter h st chain) chain)
  | Prog.seq p q, fuel, st, chain =>
    seqGlue (fun st2 => execP q fuel st2 chain) (execP p fuel st chain)
  | Prog.nop, _, st, _ => (st, Except.ok Value.vNone)

deriving instance DecidableEq for Except

/-- The pre-defined restart callbacks of the source (lines 548-563), as
Python function objects carrying their func_name. -/
def use_valueF : PyFunc := { func_name := "use_value", body := RBody.useValue }

/-- Pre-defined skip function (lines 556-558). -/
def skipF : PyFunc := { func_name := "skip", body := RBody.skip }

/-- Pre-defined retry function (lines 560-563). -/
def retryF : PyFunc := { func_name := "retry", body := RBody.retry }

/-- Pre-defined raise_error function (lines 552-554). -/
def raise_errorF : PyFunc := { func_name := "raise_error", body := RBody.raiseError }

/-- A fresh interpreter state: empty context stacks, counter 0, with frame 0
taken by the top-level user frame (so frame identities from 1 up are free). -/
def stEmpty : PyState :=
  { curRestarts := CallStack.empty, curHandlers := CallStack.empty,
    curCalls := CallStack.empty, counter := 0, nextFrame := 1 }

/-- The use_value restart of the C1 scenario, allocated by
RestartSuite(use_value) wrapping the bare callable. -/
def useValueR : Restart := Restart.make 0 use_valueF Option.none

/-- with restarts(use_value): the entered suite of the C1 scenario. -/
def suiteC1 : RestartSuite := RestartSuite.init [SuiteArg.func use_valueF] 0

/-- The C1 handler: def handle_TypeError(e): raise InvokeRestart("use_value",7),
registered for TypeError (test_basic of the source tests). -/
def hC1 : Handler :=
  { exc_type := [ErrClass.typeError],
    func := HFunc.cb (HCallback.raiseInvokeByName "use_value" [Value.int 7]),
    args := [] }

/-- State after: with Handler(TypeError, handle_TypeError): with restarts(use_value):
both entered at the user frame 0. -/
def stC1 : PyState :=
  suiteEnter suiteC1 (handlerEnter (HandlerItem.single hC1) stEmpty [0]) [0]

/-- Same scenario without any handler. -/
def stC1noH : PyState := suiteEnter suiteC1 stEmpty [0]




/-- The skip restart of the C2 scenario, Restart(skip). -/
def skipR : Restart := Restart.make 1 skipF Option.none

/-- with Handler(ValueError? no - TypeError, "skip"): with restarts(skip): -/
def hC2 : Handler :=
  { exc_type := [ErrClass.typeError], func := HFunc.name "skip", args := [] }

def stC2 : PyState :=
  suiteEnter (RestartSuite.init [SuiteArg.restart skipR] 2)
    (handlerEnter (HandlerItem.single hC2) stEmpty [0]) [0]



/-- incrCounter callback of the C3 scenario, named "ra". -/
def raF : PyFunc := { func_name := "ra", body := RBody.incrCounter }

def rA : Restart := Restart.make 20 raF Option.none

def suiteA : RestartSuite := { restarts := [rA] }

def rbF : PyFunc := { func_name := "rb", body := RBody.useValue }

def rB : Restart := Restart.make 21 rbF Option.none

def suiteB : RestartSuite := { restarts := [rB] }

def hC3 : Handler :=
  { exc_type := [ErrClass.typeError], func := HFunc.name "ra", args := [] }

def progC3 : Prog :=
  Prog.withRestarts suiteA
    (Prog.withRestarts suiteB
      (Prog.callSuite suiteB Target.div [Value.int 6, Value.str "2"]))

def stC3 : PyState := handlerEnter (HandlerItem.single hC3) stEmpty [0]


/-- The retry restart of the C5 scenario, allocated by restarts(retry). -/
def rRetry : Restart := Restart.make 30 retryF Option.none

/-- The C5 handler: on ValueError, raise InvokeRestart("retry") — a handler
that always resolves via retry (test_retry of the source tests). -/
def hRetry : Handler :=
  { exc_type := [ErrClass.valueError],
    func := HFunc.cb (HCallback.raiseInvokeByName "retry" []), args := [] }

/-- The C5 scenario state family: the retry suite and the always-retry
handler entered at the user frame 0, with call-record stack cc, call counter
c and next free frame nf. -/
def stRetry (cc : CallStack CallRecord) (c nf : Nat) : PyState :=
  { curRestarts := CallStack.empty.pushAt 0 { restarts := [rRetry] },
    curHandlers := CallStack.empty.pushAt 0 (HandlerItem.single hRetry),
    curCalls := cc, counter := c, nextFrame := nf }


def rInner : Restart := { id := 11, name := "r", func := use_valueF }
def rOuter : Restart := { id := 10, name := "r", func := use_valueF }

def stC6 : PyState :=
  suiteEnter { restarts := [rInner] }
    (suiteEnter { restarts := [rOuter] } stEmpty [0]) [1, 0]


def hC7 : Handler :=
  { exc_type := [ErrClass.typeError], func := HFunc.name "myval", args := [Value.int 5] }

def myvalR : Restart := { id := 40, name := "myval", func := use_valueF }

def stC7a : PyState :=
  suiteEnter { restarts := [myvalR] }
    (handlerEnter (HandlerItem.single hC7) stEmpty [0]) [0]

def stC7b : PyState := handlerEnter (HandlerItem.single hC7) stEmpty [0]


def my_use_valueF : PyFunc := { func_name := "my_use_value", body := RBody.useValue }

def stC10 : PyState :=
  suiteEnter (RestartSuite.init [SuiteArg.func my_use_valueF] 7)
    (handlerEnter
      (HandlerItem.single
        { exc_type := [ErrClass.typeError],
          func := HFunc.cb (HCallback.raiseInvokeByName "my_use_value" [Value.int 7]),
          args := [] })
      stEmpty [0]) [0]


theorem CallStack.pop_cons_of_ne_nil {α : Type} (cs : CallStack α) (f : Nat)
    (rest : List Nat) (h : cs f ≠ []) :
    CallStack.pop cs (f :: rest)
      = some (fun g => if g = f then (cs f).dropLast else cs g) := by
  unfold CallStack.pop
  cases hcf : cs f with
  | nil => exact absurd hcf h
  | cons a l => simp [hcf]

theorem CallStack.pop_pushAt {α : Type} (cs : CallStack α) (f : Nat) (it : α)
    (chain : List Nat) :
    CallStack.pop (cs.pushAt f it) (f :: chain) = some cs := by
  rw [CallStack.pop_cons_of_ne_nil]
  · congr 1
    funext g
    by_cases hg : g = f
    · subst hg
      simp [CallStack.pushAt, List.dropLast_concat]
    · simp [CallStack.pushAt, hg]
  · simp [CallStack.pushAt]

theorem finishPop_eq_of_curCalls (st3 : PyState) (base : CallStack CallRecord)
    (f : Nat) (it : CallRecord) (chain : List Nat) (res : Except Exc Value)
    (h : st3.curCalls = base.pushAt f it) :
    finishPop st3 (f :: chain) res = ({ st3 with curCalls := base }, res) := by
  unfold finishPop
  rw [h, CallStack.pop_pushAt]

theorem invoke_resolved_use_value (st : PyState) (chain : List Nat) (tgt : Target)
    (args : List Value) (err : Err) (c2 : Nat) (r : Restart) (v : Value) (fuel : Nat)
    (h1 : evalTarget tgt args st.counter = (c2, Except.error err))
    (h2 : invoke_cur_handlers st.curHandlers st.curRestarts (st.nextFrame :: chain) err
            = Except.error (Exc.signal r [v]))
    (h3 : r.func.body = RBody.useValue) (h4 : v ≠ Value.noValue) :
    invoke (fuel + 2) st chain tgt args
      = ({ st with nextFrame := st.nextFrame + 1, counter := c2 }, Except.ok v) := by
  have hf : fuel + 2 = Nat.succ (fuel + 1) := rfl
  unfold invoke
  rw [hf]
  simp only [step, h1, h2, h3, memberOf]
  rw [finishPop_eq_of_curCalls (recordPush st Dispatcher.free tgt args c2) st.curCalls
        st.nextFrame { disp := Dispatcher.free, tgt := tgt, args := args } chain
        (Except.ok v) rfl]
  simp [if_neg h4, recordPush]

theorem invoke_noValue_reraises_signal (st : PyState) (chain : List Nat) (tgt : Target)
    (args : List Value) (err : Err) (c2 : Nat) (r : Restart) (fuel : Nat)
    (h1 : evalTarget tgt args st.counter = (c2, Except.error err))
    (h2 : invoke_cur_handlers st.curHandlers st.curRestarts (st.nextFrame :: chain) err
            = Except.error (Exc.signal r []))
    (h3 : r.func.body = RBody.skip) :
    invoke (fuel + 2) st chain tgt args
      = ({ st with nextFrame := st.nextFrame + 1, counter := c2 },
         Except.error (Exc.signal r [])) := by
  have hf : fuel + 2 = Nat.succ (fuel + 1) := rfl
  unfold invoke
  rw [hf]
  simp only [step, h1, h2, h3, memberOf]
  rw [finishPop_eq_of_curCalls (recordPush st Dispatcher.free tgt args c2) st.curCalls
        st.nextFrame { disp := Dispatcher.free, tgt := tgt, args := args } chain
        (Except.error (Exc.signal r [])) rfl]
  simp [recordPush]

theorem suiteCall_foreign_signal (s : RestartSuite) (st : PyState) (chain : List Nat)
    (tgt : Target) (args : List Value) (err : Err) (c2 : Nat) (r : Restart)
    (rargs : List Value) (fuel : Nat)
    (h1 : evalTarget tgt args st.counter = (c2, Except.error err))
    (h2 : invoke_cur_handlers st.curHandlers st.curRestarts (st.nextFrame :: chain) err
            = Except.error (Exc.signal r rargs))
    (h3 : ∀ r2 ∈ s.restarts, r2.id ≠ r.id) :
    suiteCall (fuel + 1) s st chain tgt args
      = ({ st with nextFrame := st.nextFrame + 1, counter := c2 },
         Except.error (Exc.signal r rargs)) := by
  have hm : memberOf (Dispatcher.suite s) r = false := by
    simp only [memberOf, List.any_eq_false]
    intro r2 hr2
    simpa using h3 r2 hr2
  have hf : fuel + 1 = Nat.succ fuel := rfl
  unfold suiteCall
  rw [hf]
  simp only [step, h1, h2, hm]
  rw [finishPop_eq_of_curCalls (recordPush st (Dispatcher.suite s) tgt args c2) st.curCalls
        st.nextFrame { disp := Dispatcher.suite s, tgt := tgt, args := args } chain
        (Except.error (Exc.signal r rargs)) rfl]
  simp [recordPush]

theorem suiteCall_member_resolves (s : RestartSuite) (st : PyState) (chain : List Nat)
    (tgt : Target) (args : List Value) (err : Err) (c2 : Nat) (r : Restart)
    (rargs : List Value) (v : Value) (fuel : Nat)
    (h1 : evalTarget tgt args st.counter = (c2, Except.error err))
    (h2 : invoke_cur_handlers st.curHandlers st.curRestarts (st.nextFrame :: chain) err
            = Except.error (Exc.signal r rargs))
    (h3 : ∃ r2 ∈ s.restarts, r2.id = r.id)
    (h4 : r.func.body = RBody.constV v) (h5 : v ≠ Value.noValue) :
    suiteCall (fuel + 2) s st chain tgt args
      = ({ st with nextFrame := st.nextFrame + 1, counter := c2 }, Except.ok v) := by
  have hm : memberOf (Dispatcher.suite s) r = true := by
    simp only [memberOf, List.any_eq_true]
    obtain ⟨r2, hr2, he⟩ := h3
    exact ⟨r2, hr2, by simpa using he⟩
  have hf : fuel + 2 = Nat.succ (fuel + 1) := rfl
  unfold suiteCall
  rw [hf]
  simp only [step, h1, h2, h4, hm]
  rw [finishPop_eq_of_curCalls (recordPush st (Dispatcher.suite s) tgt args c2) st.curCalls
        st.nextFrame { disp := Dispatcher.suite s, tgt := tgt, args := args } chain
        (Except.ok v) rfl]
  simp [if_neg h5, recordPush]

/-- Claim C1: a protected call through the free function invoke that fails
with an error resolved by a visible handler via the use_value restart with
value v makes invoke return v; concretely, invoke(div, 6, "2") under a
handler resolving TypeError via use_value(7) returns 7, and with no visible
handler it raises the original TypeError unchanged. -/
theorem claim_C1_use_value_resolution :
    (∀ (st : PyState) (chain : List Nat) (tgt : Target) (args : List Value)
       (err : Err) (c2 : Nat) (r : Restart) (v : Value) (fuel : Nat),
       evalTarget tgt args st.counter = (c2, Except.error err) →
       invoke_cur_handlers st.curHandlers st.curRestarts (st.nextFrame :: chain) err
           = Except.error (Exc.signal r [v]) →
       r.func.body = RBody.useValue → v ≠ Value.noValue →
       invoke (fuel + 2) st chain tgt args
         = ({ st with nextFrame := st.nextFrame + 1, counter := c2 }, Except.ok v))
  ∧ (invoke 2 stC1 [0] Target.div [Value.int 6, Value.str "2"]).2
      = Except.ok (Value.int 7)
  ∧ (invoke 2 stC1noH [0] Target.div [Value.int 6, Value.str "2"]).2
      = Except.error (Exc.err Err.typeError) :=
  ⟨invoke_resolved_use_value, by decide, by decide⟩

/-- Witness for claim C1 at the concrete test_basic scenario. -/
theorem claim_C1_witness :
    evalTarget Target.div [Value.int 6, Value.str "2"] stC1.counter
        = (0, Except.error Err.typeError)
  ∧ invoke 3 stC1 [0] Target.div [Value.int 6, Value.str "2"]
      = ({ stC1 with nextFrame := stC1.nextFrame + 1, counter := 0 },
         Except.ok (Value.int 7)) :=
  ⟨by decide,
   claim_C1_use_value_resolution.1 stC1 [0] Target.div [Value.int 6, Value.str "2"]
     Err.typeError 0 useValueR (Value.int 7) 1 (by decide) (by decide) (by decide)
     (by decide)⟩

/-- Claim C2 counterexample: with a handler resolving the TypeError of
invoke(div, 6, "2") via the skip restart (which returns the NoValue
sentinel), the free-function dispatcher does NOT re-raise the original
error: the exception leaving invoke is the InvokeRestart control-transfer
signal itself (the bare raise of line 404 re-raises the exception being
handled, which inside the except InvokeRestart block is the signal). -/
theorem claim_C2_counterexample :
    (restartInvoke 1 stC2 [1, 0] skipR []).2 = Except.ok Value.noValue
  ∧ (invoke 3 stC2 [0] Target.div [Value.int 6, Value.str "2"]).2
      = Except.error (Exc.signal skipR [])
  ∧ (invoke 3 stC2 [0] Target.div [Value.int 6, Value.str "2"]).2
      ≠ Except.error (Exc.err Err.typeError) :=
  ⟨by decide, by decide, by decide⟩

/-- Claim C2 (amended): for every call invoke(target, ...) through the
free-function dispatcher that fails with error e, if a handler raises the
control-transfer signal and the selected restart's invocation returns the
NoValue sentinel (as the skip restart does), the dispatcher re-raises the
control-transfer signal itself, not the original error; the signal, not e,
propagates past the dispatcher call (to be consumed by an enclosing restart
suite's exit). -/
theorem claim_C2_amended_signal_reraise :
    ∀ (st : PyState) (chain : List Nat) (tgt : Target) (args : List Value)
      (err : Err) (c2 : Nat) (r : Restart) (fuel : Nat),
      evalTarget tgt args st.counter = (c2, Except.error err) →
      invoke_cur_handlers st.curHandlers st.curRestarts (st.nextFrame :: chain) err
          = Except.error (Exc.signal r []) →
      r.func.body = RBody.skip →
      invoke (fuel + 2) st chain tgt args
        = ({ st with nextFrame := st.nextFrame + 1, counter := c2 },
           Except.error (Exc.signal r [])) :=
  invoke_noValue_reraises_signal

/-- Witness for the amended claim C2 at the concrete skip scenario. -/
theorem claim_C2_witness :
    evalTarget Target.div [Value.int 6, Value.str "2"] stC2.counter
        = (0, Except.error Err.typeError)
  ∧ invoke 3 stC2 [0] Target.div [Value.int 6, Value.str "2"]
      = ({ stC2 with nextFrame := stC2.nextFrame + 1, counter := 0 },
         Except.error (Exc.signal skipR [])) :=
  ⟨by decide,
   claim_C2_amended_signal_reraise stC2 [0] Target.div [Value.int 6, Value.str "2"]
     Err.typeError 0 skipR 1 (by decide) (by decide) (by decide)⟩

/-- The state of the claim C3 witness: a handler naming restart "ra" and the
suite that owns rA entered at the user frame; the dispatcher called below is
the OTHER suite, suiteB, which does not own rA. -/
def stC3w : PyState :=
  suiteEnter suiteA (handlerEnter (HandlerItem.single hC3) stEmpty [0]) [0]

/-- Claim C3: a RestartSuite used as the callable dispatcher resolves a
handler-raised control-transfer signal (invoking the restart and returning
its value) only if the signal's restart is a member of this suite; a signal
for a restart outside the suite propagates out of the dispatcher unresolved,
so an enclosing suite can resolve it — as the concrete nested program shows:
the signal for rA raised under the inner suiteB dispatcher propagates
through suiteB and is resolved at the enclosing withRestarts suiteA exit
(its callback runs, bumping the counter, and the error is suppressed). -/
theorem claim_C3_suite_membership_routing :
    (∀ (s : RestartSuite) (st : PyState) (chain : List Nat) (tgt : Target)
       (args : List Value) (err : Err) (c2 : Nat) (r : Restart)
       (rargs : List Value) (fuel : Nat),
       evalTarget tgt args st.counter = (c2, Except.error err) →
       invoke_cur_handlers st.curHandlers st.curRestarts (st.nextFrame :: chain) err
           = Except.error (Exc.signal r rargs) →
       (∀ r2 ∈ s.restarts, r2.id ≠ r.id) →
       suiteCall (fuel + 1) s st chain tgt args
         = ({ st with nextFrame := st.nextFrame + 1, counter := c2 },
            Except.error (Exc.signal r rargs)))
  ∧ (∀ (s : RestartSuite) (st : PyState) (chain : List Nat) (tgt : Target)
       (args : List Value) (err : Err) (c2 : Nat) (r : Restart)
       (rargs : List Value) (v : Value) (fuel : Nat),
       evalTarget tgt args st.counter = (c2, Except.error err) →
       invoke_cur_handlers st.curHandlers st.curRestarts (st.nextFrame :: chain) err
           = Except.error (Exc.signal r rargs) →
       (∃ r2 ∈ s.restarts, r2.id = r.id) →
       r.func.body = RBody.constV v → v ≠ Value.noValue →
       suiteCall (fuel + 2) s st chain tgt args
         = ({ st with nextFrame := st.nextFrame + 1, counter := c2 }, Except.ok v))
  ∧ (execP progC3 5 stC3 [0]).2 = Except.ok Value.vNone
  ∧ (execP progC3 5 stC3 [0]).1.counter = 1 :=
  ⟨suiteCall_foreign_signal, suiteCall_member_resolves, by decide, by decide⟩

/-- Witness for claim C3: the signal for rA is not resolved by the suiteB
dispatcher and propagates out unresolved. -/
theorem claim_C3_witness :
    (∀ r2 ∈ suiteB.restarts, r2.id ≠ rA.id)
  ∧ suiteCall 1 suiteB stC3w [0] Target.div [Value.int 6, Value.str "2"]
      = ({ stC3w with nextFrame := stC3w.nextFrame + 1, counter := 0 },
         Except.error (Exc.signal rA [])) :=
  ⟨by decide,
   claim_C3_suite_membership_routing.1 suiteB stC3w [0] Target.div
     [Value.int 6, Value.str "2"] Err.typeError 0 rA [] 0 (by decide) (by decide)
     (by decide)⟩

/-- Claim C7: a Handler whose reaction is a restart name stores the bare
name at construction (no eager resolution); resolution happens at handling
time, so the same handler value resolves successfully when a restart of that
name is visible at the moment of handling (returning its value), and raises
MissingRestartError carrying the name — instead of the original error —
when it is not. -/
theorem claim_C7_restart_name_resolved_at_handling_time :
    hC7.func = HFunc.name "myval"
  ∧ (invoke 2 stC7a [0] Target.div [Value.int 6, Value.str "2"]).2
      = Except.ok (Value.int 5)
  ∧ (invoke 2 stC7b [0] Target.div [Value.int 6, Value.str "2"]).2
      = Except.error (Exc.err (Err.missingRestart "myval")) :=
  ⟨by decide, by decide, by decide⟩

/-- Claim C10: a Restart constructed without an explicit name takes the
callback function's own name; a bare callable passed to the RestartSuite
constructor is wrapped into a Restart so named; such a restart is then
selectable by the function's name: find_restart finds it and a handler
reaction naming it resolves a failing invoke through it. -/
theorem claim_C10_restart_named_after_callback :
    (Restart.make 7 my_use_valueF Option.none).name = my_use_valueF.func_name
  ∧ (RestartSuite.init [SuiteArg.func my_use_valueF] 7).restarts
      = [Restart.make 7 my_use_valueF Option.none]
  ∧ find_restart stC10.curRestarts [0] "my_use_value"
      = some (Restart.make 7 my_use_valueF Option.none)
  ∧ (invoke 2 stC10 [0] Target.div [Value.int 6, Value.str "2"]).2
      = Except.ok (Value.int 7) :=
  ⟨by decide, by decide, by decide, by decide⟩

/-- Claim C9: CallStack.pop removes the most recently pushed item of the
nearest identity — walking the current identity and its ancestors — that
still holds an item (empty identities on the way are skipped), and when no
identity of the whole ancestor chain holds an item, pop underflows (the
IndexError of the source) instead of returning. -/
theorem claim_C9_pop_nearest_or_underflow :
    (∀ (α : Type) (cs : CallStack α) (chain : List Nat),
      (∀ f ∈ chain, cs f = []) → CallStack.pop cs chain = Option.none)
  ∧ (∀ (α : Type) (cs : CallStack α) (pre : List Nat) (f : Nat) (rest : List Nat),
      (∀ g ∈ pre, cs g = []) → cs f ≠ [] →
      CallStack.pop cs (pre ++ f :: rest)
        = some (fun k => if k = f then (cs f).dropLast else cs k)) := by
  constructor
  · intro α cs chain h
    induction chain with
    | nil => rfl
    | cons f rest ih =>
      unfold CallStack.pop
      rw [h f (List.mem_cons_self f rest)]
      exact ih (fun g hg => h g (List.mem_cons_of_mem f hg))
  · intro α cs pre f rest h hf
    induction pre with
    | nil =>
      simpa using CallStack.pop_cons_of_ne_nil cs f rest hf
    | cons g pre2 ih =>
      have hg : cs g = [] := h g (List.mem_cons_self g pre2)
      rw [List.cons_append]
      unfold CallStack.pop
      rw [hg]
      exact ih (fun g2 hg2 => h g2 (List.mem_cons_of_mem g hg2))

/-- Witness for claim C9: a stack whose only items sit at frame 2, popped
from a chain of empty frames (underflow) and from a chain reaching frame 2
past two empty frames. -/
def csW : CallStack Nat := fun k => if k = 2 then [5, 6] else []

/-- Witness for claim C9. -/
theorem claim_C9_witness :
    (∀ f ∈ [0, 1], csW f = []) ∧ CallStack.pop csW [0, 1] = Option.none :=
  ⟨by decide, claim_C9_pop_nearest_or_underflow.1 Nat csW [0, 1] (by decide)⟩

theorem handleItems_first_error (pre rest : List HandlerItem) (item : HandlerItem)
    (rs : CallStack RestartSuite) (chain : List Nat) (err : Err) (ex : Exc)
    (hpre : ∀ it ∈ pre, it.handle_error rs chain err = Except.ok ())
    (hit : item.handle_error rs chain err = Except.error ex) :
    handleItems (pre ++ item :: rest) rs chain err = Except.error ex := by
  induction pre with
  | nil =>
    rw [List.nil_append]
    unfold handleItems
    rw [hit]
  | cons a t ih =>
    have ha := hpre a (List.mem_cons_self a t)
    rw [List.cons_append]
    unfold handleItems
    rw [ha]
    exact ih (fun it hi => hpre it (List.mem_cons_of_mem a hi))

/-- Claim C4: handlers are consulted in nearest-scope-first order — the
items of the innermost identity first, each identity's most recently pushed
entry first, then outward along the ancestor chain (first conjunct, the
items order); the first handler in that order whose reaction raises
(the control-transfer signal or any exception) wins, and every earlier
handler whose handle_error returns normally — because it did not match or
because its reaction declined — is skipped over (second conjunct). -/
theorem claim_C4_handlers_nearest_first_resolver_wins :
    (∀ (α : Type) (cs : CallStack α) (f : Nat) (rest : List Nat),
      cs.items (f :: rest) = (cs f).reverse ++ cs.items rest)
  ∧ (∀ (hs : CallStack HandlerItem) (rs : CallStack RestartSuite) (chain : List Nat)
       (err : Err) (pre rest : List HandlerItem) (item : HandlerItem) (ex : Exc),
       hs.items chain = pre ++ item :: rest →
       (∀ it ∈ pre, it.handle_error rs chain err = Except.ok ()) →
       item.handle_error rs chain err = Except.error ex →
       invoke_cur_handlers hs rs chain err = Except.error ex) := by
  constructor
  · intro α cs f rest
    rfl
  · intro hs rs chain err pre rest item ex hitems hpre hit
    unfold invoke_cur_handlers
    rw [hitems]
    exact handleItems_first_error pre rest item rs chain err ex hpre hit

/-- A handler that matches TypeError but declines (its callback returns
normally), pushed nearest in the C4 witness scenario. -/
def hDecl : Handler :=
  { exc_type := [ErrClass.typeError], func := HFunc.cb HCallback.decline, args := [] }

/-- The C4 witness state: the declining handler is pushed after (so tried
before) the resolving handler of the C1 scenario. -/
def stC4 : PyState := handlerEnter (HandlerItem.single hDecl) stC1 [0]

/-- Witness for claim C4: the nearest handler matches and declines, the next
one resolves; dispatching the error yields the second handler's signal. -/
theorem claim_C4_witness :
    stC4.curHandlers.items [0]
        = [HandlerItem.single hDecl] ++ HandlerItem.single hC1 :: []
  ∧ invoke_cur_handlers stC4.curHandlers stC4.curRestarts [0] Err.typeError
      = Except.error (Exc.signal useValueR [Value.int 7]) :=
  ⟨by decide,
   claim_C4_handlers_nearest_first_resolver_wins.2 stC4.curHandlers stC4.curRestarts
     [0] Err.typeError [HandlerItem.single hDecl] [] (HandlerItem.single hC1)
     (Exc.signal useValueR [Value.int 7]) (by decide) (by decide) (by decide)⟩

theorem suitesFind_none (l : List RestartSuite) (name : String)
    (h : ∀ s ∈ l, ∀ r ∈ s.restarts, r.name ≠ name) :
    suitesFind l name = Option.none := by
  induction l with
  | nil => rfl
  | cons s t ih =>
    unfold suitesFind
    have hs : s.restarts.find? (fun r2 => r2.name == name) = Option.none := by
      rw [List.find?_eq_none]
      intro r hr
      simpa using h s (List.mem_cons_self s t) r hr
    rw [hs]
    exact ih (fun s2 hs2 r hr => h s2 (List.mem_cons_of_mem s hs2) r hr)

/-- Claim C6: find_restart searches the visible restarts nearest scope
first: if no visible suite holds the name it returns None (first conjunct);
the innermost visible suite holding the name always wins (second conjunct:
whatever the outer suites contain, a hit in the nearest suite is returned);
concretely, with two nested active suites both owning a restart named "r",
the restart of the innermost suite (object rInner, distinct from rOuter) is
returned. -/
theorem claim_C6_find_restart_innermost :
    (∀ (rs : CallStack RestartSuite) (chain : List Nat) (name : String),
      (∀ s ∈ rs.items chain, ∀ r ∈ s.restarts, r.name ≠ name) →
      find_restart rs chain name = Option.none)
  ∧ (∀ (rs : CallStack RestartSuite) (chain : List Nat) (name : String)
       (s : RestartSuite) (rest : List RestartSuite) (r : Restart),
       rs.items chain = s :: rest →
       s.restarts.find? (fun r2 => r2.name == name) = some r →
       find_restart rs chain name = some r)
  ∧ find_restart stC6.curRestarts [1, 0] "r" = some rInner
  ∧ rInner ≠ rOuter
  ∧ find_restart stC6.curRestarts [1, 0] "absent" = Option.none := by
  refine ⟨?_, ?_, by decide, by decide, by decide⟩
  · intro rs chain name h
    unfold find_restart
    exact suitesFind_none (rs.items chain) name h
  · intro rs chain name s rest r hitems hfind
    unfold find_restart
    rw [hitems]
    unfold suitesFind
    rw [hfind]

/-- Witness for claim C6: the innermost-first rule applied at the concrete
nested state. -/
theorem claim_C6_witness :
    stC6.curRestarts.items [1, 0] = { restarts := [rInner] } :: [{ restarts := [rOuter] }]
  ∧ find_restart stC6.curRestarts [1, 0] "r" = some rInner :=
  ⟨by decide,
   claim_C6_find_restart_innermost.2.1 stC6.curRestarts [1, 0] "r"
     { restarts := [rInner] } [{ restarts := [rOuter] }] rInner (by decide) (by decide)⟩

theorem items_pushAt_zero {α : Type} (x : α) (chain : List Nat) :
    CallStack.items (CallStack.empty.pushAt 0 x) chain
      = List.replicate (chain.count 0) x := by
  induction chain with
  | nil => rfl
  | cons f rest ih =>
    unfold CallStack.items
    rw [ih]
    by_cases hf : f = 0
    · subst hf
      simp [CallStack.pushAt, CallStack.empty, List.count_cons, List.replicate_succ]
    · simp [CallStack.pushAt, CallStack.empty, hf, List.count_cons]

theorem count_zero_succ_of_mem (chain : List Nat) (h : 0 ∈ chain) :
    ∃ m, chain.count 0 = m + 1 := by
  have hpos : 0 < chain.count 0 := List.count_pos_iff.mpr h
  exact ⟨chain.count 0 - 1, by omega⟩

theorem find_retry (chain : List Nat) (h : 0 ∈ chain) :
    find_restart (CallStack.empty.pushAt 0 { restarts := [rRetry] }) chain "retry"
      = some rRetry := by
  unfold find_restart
  rw [items_pushAt_zero]
  obtain ⟨m, hm⟩ := count_zero_succ_of_mem chain h
  rw [hm, List.replicate_succ]
  unfold suitesFind
  have hf : (({ restarts := [rRetry] } : RestartSuite)).restarts.find?
      (fun r2 => r2.name == "retry") = some rRetry := by decide
  rw [hf]

theorem handlers_retry (chain : List Nat) (h : 0 ∈ chain) :
    invoke_cur_handlers (CallStack.empty.pushAt 0 (HandlerItem.single hRetry))
      (CallStack.empty.pushAt 0 { restarts := [rRetry] }) chain Err.valueError
      = Except.error (Exc.signal rRetry []) := by
  unfold invoke_cur_handlers
  rw [items_pushAt_zero]
  obtain ⟨m, hm⟩ := count_zero_succ_of_mem chain h
  rw [hm, List.replicate_succ]
  unfold handleItems
  have hh : (HandlerItem.single hRetry).handle_error
      (CallStack.empty.pushAt 0 { restarts := [rRetry] }) chain Err.valueError
      = Except.error (Exc.signal rRetry []) := by
    show Handler.handle_error hRetry
      (CallStack.empty.pushAt 0 { restarts := [rRetry] }) chain Err.valueError = _
    unfold Handler.handle_error
    have hinst : Err.valueError.isinstanceAny hRetry.exc_type = true := by decide
    rw [hinst]
    show runCallback (HCallback.raiseInvokeByName "retry" [])
      (CallStack.empty.pushAt 0 { restarts := [rRetry] }) chain Err.valueError = _
    simp only [runCallback, mkInvokeRestart, find_retry chain h]
  rw [hh]

theorem items_pushAt_head {α : Type} (cs : CallStack α) (f : Nat) (it : α)
    (chain : List Nat) :
    (cs.pushAt f it).items (f :: chain)
      = it :: ((cs f).reverse ++ (cs.pushAt f it).items chain) := by
  show ((cs.pushAt f it) f).reverse ++ (cs.pushAt f it).items chain = _
  simp [CallStack.pushAt]

theorem retry_loop : ∀ (k c nf : Nat) (cc : CallStack CallRecord) (chain : List Nat)
    (v : Value), 0 ∈ chain → v ≠ Value.noValue →
    invoke (2 * k + 2) (stRetry cc c nf) chain (Target.flaky (c + k) v) []
      = (stRetry cc (c + k + 1) (nf + k + 1), Except.ok v) := by
  intro k
  induction k with
  | zero =>
    intro c nf cc chain v h0 hv
    unfold invoke
    show step (Nat.succ (Nat.succ 0))
        (Req.call Dispatcher.free (Target.flaky (c + 0) v) []) (stRetry cc c nf) chain = _
    simp [step, stRetry, evalTarget, recordPush, finishPop, CallStack.pop_pushAt]
  | succ k ih =>
    intro c nf cc chain v h0 hv
    obtain ⟨F, hF⟩ : ∃ F, F = 2 * k + 2 := ⟨2 * k + 2, rfl⟩
    have hfuel : 2 * (k + 1) + 2 = Nat.succ (Nat.succ F) := by omega
    have he : evalTarget (Target.flaky (c + (k + 1)) v) [] c
        = (c + 1, Except.error Err.valueError) := by
      simp only [evalTarget]
      rw [if_pos (by omega : c < c + (k + 1))]
    have hh := handlers_retry (nf :: chain) (List.mem_cons_of_mem nf h0)
    have hbody : rRetry.func.body = RBody.retry := rfl
    unfold invoke
    rw [hfuel]
    simp only [step, stRetry, he, hh, memberOf, recordPush, hbody,
               items_pushAt_head, if_true]
    rw [show c + (k + 1) = c + 1 + k from by omega]
    have ih2 := ih (c + 1) (nf + 1)
      (cc.pushAt nf { disp := Dispatcher.free, tgt := Target.flaky (c + 1 + k) v,
                      args := [] })
      (nf :: chain) v (List.mem_cons_of_mem nf h0) hv
    simp only [invoke, stRetry] at ih2
    rw [hF]
    simp only [ih2, if_neg hv]
    rw [finishPop_eq_of_curCalls _ cc nf
          { disp := Dispatcher.free, tgt := Target.flaky (c + 1 + k) v, args := [] }
          chain (Except.ok v) rfl]
    rw [show c + 1 + k + 1 = c + (k + 1) + 1 from by omega,
        show nf + 1 + k + 1 = nf + (k + 1) + 1 from by omega]

/-- Claim C5: the retry restart reads the most recent in-flight CallRecord
visible from the current identity (the head of _cur_calls.items()) and
re-invokes the recorded target on its original arguments through the
recorded dispatcher (first conjunct); consequently, for a target that fails
n times and then succeeds, under a handler that always resolves via retry,
the dispatcher returns the eventual success value and the target is called
exactly n + 1 times (the scenario counter counts the calls). -/
theorem claim_C5_retry_reinvokes_recorded_call :
    (∀ (fuel : Nat) (st : PyState) (chain : List Nat) (r : Restart)
       (rec : CallRecord) (rest : List CallRecord),
       r.func.body = RBody.retry →
       st.curCalls.items chain = rec :: rest →
       restartInvoke (fuel + 1) st chain r []
         = step fuel (Req.call rec.disp rec.tgt rec.args) st chain)
  ∧ (∀ (n : Nat) (v : Value) (chain : List Nat), 0 ∈ chain → v ≠ Value.noValue →
       (invoke (2 * n + 2) (stRetry CallStack.empty 0 1) chain
           (Target.flaky n v) []).2 = Except.ok v
     ∧ (invoke (2 * n + 2) (stRetry CallStack.empty 0 1) chain
           (Target.flaky n v) []).1.counter = n + 1) := by
  constructor
  · intro fuel st chain r rec rest hb hi
    unfold restartInvoke
    show step (Nat.succ fuel) (Req.restart r []) st chain = _
    simp only [step, hb, hi]
  · intro n v chain h0 hv
    have h := retry_loop n 0 1 CallStack.empty chain v h0 hv
    rw [Nat.zero_add] at h
    constructor
    · rw [h]
    · rw [h]
      rfl

/-- Witness for claim C5 with n = 2: three calls, final value 5. -/
theorem claim_C5_witness :
    (0 ∈ [0] ∧ Value.int 5 ≠ Value.noValue)
  ∧ (invoke 6 (stRetry CallStack.empty 0 1) [0] (Target.flaky 2 (Value.int 5)) []).2
      = Except.ok (Value.int 5)
  ∧ (invoke 6 (stRetry CallStack.empty 0 1) [0] (Target.flaky 2 (Value.int 5)) []).1.counter
      = 3 :=
  ⟨⟨by decide, by decide⟩,
   (claim_C5_retry_reinvokes_recorded_call.2 2 (Value.int 5) [0] (by decide)
     (by decide)).1,
   (claim_C5_retry_reinvokes_recorded_call.2 2 (Value.int 5) [0] (by decide)
     (by decide)).2⟩

theorem finishPop_recordPush (st : PyState) (d : Dispatcher) (tgt : Target)
    (args : List Value) (c2 : Nat) (chain : List Nat) (res : Except Exc Value) :
    finishPop (recordPush st d tgt args c2) (st.nextFrame :: chain) res
      = ({ st with nextFrame := st.nextFrame + 1, counter := c2 }, res) := by
  rw [finishPop_eq_of_curCalls (recordPush st d tgt args c2) st.curCalls st.nextFrame
        { disp := d, tgt := tgt, args := args } chain res rfl]
  simp [recordPush]

theorem step_preserves (fuel : Nat) : ∀ (req : Req) (st : PyState) (chain : List Nat),
    (step fuel req st chain).1.curRestarts = st.curRestarts
  ∧ (step fuel req st chain).1.curHandlers = st.curHandlers
  ∧ (step fuel req st chain).1.curCalls = st.curCalls
  ∧ st.nextFrame ≤ (step fuel req st chain).1.nextFrame := by
  induction fuel with
  | zero =>
    intro req st chain
    exact ⟨rfl, rfl, rfl, Nat.le_refl _⟩
  | succ fuel ih =>
    intro req st chain
    cases req with
    | restart r args =>
      simp only [step]
      split
      · exact ⟨rfl, rfl, rfl, Nat.le_refl _⟩
      · exact ⟨rfl, rfl, rfl, Nat.le_refl _⟩
      · exact ⟨rfl, rfl, rfl, Nat.le_refl _⟩
      · split
        · exact ⟨rfl, rfl, rfl, Nat.le_refl _⟩
        · exact ih _ st chain
      · exact ⟨rfl, rfl, rfl, Nat.le_refl _⟩
      · exact ⟨rfl, rfl, rfl, Nat.le_refl _⟩
      · exact ⟨rfl, rfl, rfl, Nat.le_refl _⟩
      · exact ⟨rfl, rfl, rfl, Nat.le_refl _⟩
    | call d tgt args =>
      simp only [step]
      split
      · rw [finishPop_recordPush]
        exact ⟨rfl, rfl, rfl, Nat.le_succ _⟩
      · split
        · rw [finishPop_recordPush]
          exact ⟨rfl, rfl, rfl, Nat.le_succ _⟩
        · split
          · split
            · rename_i pr c2 err heval hres r rargs hsig hmem pin st3 v heq
              obtain ⟨h1, h2, h3, h4⟩ :=
                ih (Req.restart r rargs) (recordPush st d tgt args c2)
                  (st.nextFrame :: chain)
              rw [heq] at h1 h2 h3 h4
              simp only [recordPush] at h1 h2 h3 h4
              split
              · rw [finishPop_eq_of_curCalls st3 st.curCalls st.nextFrame
                      { disp := d, tgt := tgt, args := args } chain _ h3]
                exact ⟨h1, h2, rfl, by show st.nextFrame ≤ st3.nextFrame; omega⟩
              · rw [finishPop_eq_of_curCalls st3 st.curCalls st.nextFrame
                      { disp := d, tgt := tgt, args := args } chain _ h3]
                exact ⟨h1, h2, rfl, by show st.nextFrame ≤ st3.nextFrame; omega⟩
            · rename_i pr c2 err heval hres r rargs hsig hmem pin st3 ex heq
              obtain ⟨h1, h2, h3, h4⟩ :=
                ih (Req.restart r rargs) (recordPush st d tgt args c2)
                  (st.nextFrame :: chain)
              rw [heq] at h1 h2 h3 h4
              simp only [recordPush] at h1 h2 h3 h4
              rw [finishPop_eq_of_curCalls st3 st.curCalls st.nextFrame
                    { disp := d, tgt := tgt, args := args } chain _ h3]
              exact ⟨h1, h2, rfl, by show st.nextFrame ≤ st3.nextFrame; omega⟩
          · rw [finishPop_recordPush]
            exact ⟨rfl, rfl, rfl, Nat.le_succ _⟩
        · rw [finishPop_recordPush]
          exact ⟨rfl, rfl, rfl, Nat.le_succ _⟩

theorem restartsPop_fields (st : PyState) (chain : List Nat) (res : Except Exc Bool) :
    (restartsPop st chain res).1.curCalls = st.curCalls
  ∧ (restartsPop st chain res).1.curHandlers = st.curHandlers
  ∧ (restartsPop st chain res).1.curRestarts
      = (st.curRestarts.pop chain).getD st.curRestarts
  ∧ (restartsPop st chain res).1.nextFrame = st.nextFrame := by
  unfold restartsPop
  split
  · rename_i cr heq
    exact ⟨rfl, rfl, by rw [heq]; rfl, rfl⟩
  · rename_i heq
    exact ⟨rfl, rfl, by rw [heq]; rfl, rfl⟩

theorem suiteExitOnSignal_stacks (fuel : Nat) (s : RestartSuite) (st : PyState)
    (chain : List Nat) (r : Restart) (args : List Value) :
    (suiteExitOnSignal fuel s st chain r args).1.curCalls = st.curCalls
  ∧ (suiteExitOnSignal fuel s st chain r args).1.curHandlers = st.curHandlers
  ∧ (suiteExitOnSignal fuel s st chain r args).1.curRestarts
      = (st.curRestarts.pop chain).getD st.curRestarts
  ∧ st.nextFrame ≤ (suiteExitOnSignal fuel s st chain r args).1.nextFrame := by
  have hinv : ∀ (st2 : PyState) (res2 : Except Exc Value) (res : Except Exc Bool),
      restartInvoke fuel st chain r args = (st2, res2) →
      (restartsPop st2 chain res).1.curCalls = st.curCalls
    ∧ (restartsPop st2 chain res).1.curHandlers = st.curHandlers
    ∧ (restartsPop st2 chain res).1.curRestarts
        = (st.curRestarts.pop chain).getD st.curRestarts
    ∧ st.nextFrame ≤ (restartsPop st2 chain res).1.nextFrame := by
    intro st2 res2 res hri
    have hri2 : step fuel (Req.restart r args) st chain = (st2, res2) := hri
    obtain ⟨h1, h2, h3, h4⟩ := step_preserves fuel (Req.restart r args) st chain
    rw [hri2] at h1 h2 h3 h4
    obtain ⟨a, b, c, d⟩ := restartsPop_fields st2 chain res
    exact ⟨by rw [a]; exact h3, by rw [b]; exact h2, by rw [c]; rw [show st2.curRestarts
            = st.curRestarts from h1], by rw [d]; exact h4⟩
  unfold suiteExitOnSignal
  by_cases hmem : (s.restarts.any (fun r2 => r2.id == r.id)) = true
  · rw [if_pos hmem]
    rcases hri : restartInvoke fuel st chain r args with ⟨st2, res2⟩
    cases res2 with
    | ok u => exact hinv st2 _ _ hri
    | error ex3 => exact hinv st2 _ _ hri
  · rw [if_neg hmem]
    obtain ⟨a, b, c, d⟩ := restartsPop_fields st chain (Except.ok false)
    exact ⟨a, b, c, by rw [d]⟩

theorem suiteExitOnErr_stacks (fuel : Nat) (s : RestartSuite) (st : PyState)
    (chain : List Nat) (hres : Except Exc Unit) :
    (suiteExitOnErr fuel s st chain hres).1.curCalls = st.curCalls
  ∧ (suiteExitOnErr fuel s st chain hres).1.curHandlers = st.curHandlers
  ∧ (suiteExitOnErr fuel s st chain hres).1.curRestarts
      = (st.curRestarts.pop chain).getD st.curRestarts
  ∧ st.nextFrame ≤ (suiteExitOnErr fuel s st chain hres).1.nextFrame := by
  cases hres with
  | ok u =>
    simp only [suiteExitOnErr]
    obtain ⟨a, b, c, d⟩ := restartsPop_fields st chain (Except.ok false)
    exact ⟨a, b, c, by rw [d]⟩
  | error ex =>
    cases ex with
    | signal r args =>
      simp only [suiteExitOnErr]
      have h := suiteExitOnSignal_stacks fuel s st chain r args
      by_cases hmem : (s.restarts.any (fun r2 => r2.id == r.id)) = true
      · rw [if_pos hmem]
        unfold suiteExitOnSignal at h
        rw [if_pos hmem] at h
        exact h
      · rw [if_neg hmem]
        obtain ⟨a, b, c, d⟩ := restartsPop_fields st chain
          (Except.error (Exc.signal r args))
        exact ⟨a, b, c, by rw [d]⟩
    | err e2 =>
      simp only [suiteExitOnErr]
      obtain ⟨a, b, c, d⟩ := restartsPop_fields st chain (Except.error (Exc.err e2))
      exact ⟨a, b, c, by rw [d]⟩
    | outOfFuel =>
      simp only [suiteExitOnErr]
      obtain ⟨a, b, c, d⟩ := restartsPop_fields st chain (Except.error Exc.outOfFuel)
      exact ⟨a, b, c, by rw [d]⟩

theorem suiteExit_stacks (fuel : Nat) (s : RestartSuite) (st : PyState)
    (chain : List Nat) (exc : Option Exc) :
    (suiteExit fuel s st chain exc).1.curCalls = st.curCalls
  ∧ (suiteExit fuel s st chain exc).1.curHandlers = st.curHandlers
  ∧ (suiteExit fuel s st chain exc).1.curRestarts
      = (st.curRestarts.pop chain).getD st.curRestarts
  ∧ st.nextFrame ≤ (suiteExit fuel s st chain exc).1.nextFrame := by
  cases exc with
  | none =>
    simp only [suiteExit]
    obtain ⟨a, b, c, d⟩ := restartsPop_fields st chain (Except.ok false)
    exact ⟨a, b, c, by rw [d]⟩
  | some ex =>
    cases ex with
    | err e =>
      simp only [suiteExit]
      exact suiteExitOnErr_stacks fuel s st chain _
    | signal r args =>
      simp only [suiteExit]
      exact suiteExitOnSignal_stacks fuel s st chain r args
    | outOfFuel =>
      simp only [suiteExit]
      obtain ⟨a, b, c, d⟩ := restartsPop_fields st chain (Except.error Exc.outOfFuel)
      exact ⟨a, b, c, by rw [d]⟩

/-- Claim C8: for every properly nested program of RestartSuite/HandlerSuite
with-blocks and dispatcher invocations (each of which pushes a CallRecord
before the call and releases it on success, resolved failure or re-raise),
execution leaves all three execution-context stacks exactly as they were on
entry, on every exit path (normal return, exception, or control-transfer):
exiting the outermost scope leaves zero entries for that call chain. -/
theorem claim_C8_no_context_leaks :
    ∀ (p : Prog) (fuel : Nat) (st : PyState) (chain : List Nat),
      (execP p fuel st chain).1.curRestarts = st.curRestarts
    ∧ (execP p fuel st chain).1.curHandlers = st.curHandlers
    ∧ (execP p fuel st chain).1.curCalls = st.curCalls
    ∧ st.nextFrame ≤ (execP p fuel st chain).1.nextFrame := by
  intro p
  induction p with
  | callFree tgt args =>
    intro fuel st chain
    exact step_preserves fuel (Req.call Dispatcher.free tgt args) st chain
  | callSuite s tgt args =>
    intro fuel st chain
    exact step_preserves fuel (Req.call (Dispatcher.suite s) tgt args) st chain
  | nop =>
    intro fuel st chain
    exact ⟨rfl, rfl, rfl, Nat.le_refl _⟩
  | seq p q ihp ihq =>
    intro fuel st chain
    simp only [execP]
    rcases hp : execP p fuel st chain with ⟨st2, r2⟩
    obtain ⟨a1, b1, c1, d1⟩ := ihp fuel st chain
    rw [hp] at a1 b1 c1 d1
    cases r2 with
    | error e =>
      simp only [seqGlue]
      exact ⟨a1, b1, c1, d1⟩
    | ok v =>
      simp only [seqGlue]
      obtain ⟨a2, b2, c2, d2⟩ := ihq fuel st2 chain
      exact ⟨a2.trans a1, b2.trans b1, c2.trans c1, Nat.le_trans d1 d2⟩
  | withRestarts s body ihb =>
    intro fuel st chain
    simp only [execP]
    rcases hb : execP body fuel (suiteEnter s st chain) chain with ⟨st2, r2⟩
    obtain ⟨a1, b1, c1, d1⟩ := ihb fuel (suiteEnter s st chain) chain
    rw [hb] at a1 b1 c1 d1
    have hexit : ∀ (exc : Option Exc),
        (suiteExit fuel s st2 chain exc).1.curRestarts = st.curRestarts
      ∧ (suiteExit fuel s st2 chain exc).1.curHandlers = st.curHandlers
      ∧ (suiteExit fuel s st2 chain exc).1.curCalls = st.curCalls
      ∧ st.nextFrame ≤ (suiteExit fuel s st2 chain exc).1.nextFrame := by
      intro exc
      obtain ⟨e1, e2, e3, e4⟩ := suiteExit_stacks fuel s st2 chain exc
      cases chain with
      | nil =>
        have ha : st2.curRestarts = st.curRestarts := a1
        refine ⟨?_, ?_, ?_, ?_⟩
        · rw [e3, ha]
          rfl
        · rw [e2]
          exact b1
        · rw [e1]
          exact c1
        · exact Nat.le_trans d1 e4
      | cons f rest =>
        have ha : st2.curRestarts = st.curRestarts.pushAt f s := a1
        refine ⟨?_, ?_, ?_, ?_⟩
        · rw [e3, ha, CallStack.pop_pushAt]
          rfl
        · rw [e2]
          exact b1
        · rw [e1]
          exact c1
        · exact Nat.le_trans d1 e4
    cases r2 with
    | ok v =>
      simp only [suiteExitGlue]
      rcases hx : suiteExit fuel s st2 chain Option.none with ⟨st3, er⟩
      obtain ⟨f1, f2, f3, f4⟩ := hexit Option.none
      rw [hx] at f1 f2 f3 f4
      cases er with
      | ok b => exact ⟨f1, f2, f3, f4⟩
      | error ex => exact ⟨f1, f2, f3, f4⟩
    | error e =>
      simp only [suiteExitGlue]
      rcases hx : suiteExit fuel s st2 chain (some e) with ⟨st3, er⟩
      obtain ⟨f1, f2, f3, f4⟩ := hexit (some e)
      rw [hx] at f1 f2 f3 f4
      cases er with
      | ok b =>
        cases b with
        | true => exact ⟨f1, f2, f3, f4⟩
        | false => exact ⟨f1, f2, f3, f4⟩
      | error ex => exact ⟨f1, f2, f3, f4⟩
  | withHandler h body ihb =>
    intro fuel st chain
    simp only [execP]
    rcases hb : execP body fuel (handlerEnter h st chain) chain with ⟨st2, r2⟩
    obtain ⟨a1, b1, c1, d1⟩ := ihb fuel (handlerEnter h st chain) chain
    rw [hb] at a1 b1 c1 d1
    simp only [handlerExitGlue]
    cases chain with
    | nil =>
      have hpop : st2.curHandlers.pop [] = Option.none := rfl
      rw [hpop]
      have hh : st2.curHandlers = st.curHandlers := b1
      exact ⟨a1, hh, c1, d1⟩
    | cons f rest =>
      have hh : st2.curHandlers = st.curHandlers.pushAt f h := b1
      rw [hh, CallStack.pop_pushAt]
      exact ⟨a1, rfl, c1, d1⟩
